import Mathlib

/-!
Shallow embedding of `ocs_ci/krkn_chaos/krkn_scenario_generator.py`.

Python values that flow into scenario configurations are modelled by the
inductive type `Val`; a scenario configuration (a Python dict built by one
builder call) is an association list `Config` that preserves the insertion
order of the source's dict literals.  Optional parameters defaulting to
`None` are modelled as `Val.none` (or `Option _` where the source only ever
sees strings/lists), and Python truthiness (`if not x`, `x or y`) is
modelled by `pyTruthy` / `pyOr`.

Each builder function returns the output filename together with the
assembled configuration; builders that validate their arguments return
`Except String (String × Config)`, the `String` on the error side being the
`ValueError` message raised by the source.  The final `write_to_file` call
of every builder is modelled separately by `runScenario`, which threads an
explicit list of performed writes.
-/

set_option maxRecDepth 100000

/-- A Python value as used by the scenario generator: strings, ints,
booleans, lists, dicts (insertion ordered) and `None`. -/
inductive Val where
  | str (s : String)
  | int (n : Int)
  | bool (b : Bool)
  | list (xs : List Val)
  | dict (xs : List (String × Val))
  | none
  deriving Repr

/-- A scenario configuration: a Python dict from string keys to values,
in insertion order. -/
abbrev Config : Type := List (String × Val)

/-- Python truthiness of a `Val` (`bool(x)`): empty strings, zero, empty
containers and `None` are falsy. -/
def pyTruthy : Val → Bool
  | Val.str s => !s.isEmpty
  | Val.int n => n != 0
  | Val.bool b => b
  | Val.list xs => !xs.isEmpty
  | Val.dict xs => !xs.isEmpty
  | Val.none => false

/-- Python `a or b`: returns `a` when truthy, else `b`. -/
def pyOr (a b : Val) : Val := if pyTruthy a then a else b

/-- Python truthiness of an optional string parameter (`None` and `""` are
falsy). -/
def pyTruthyStr : Option String → Bool
  | Option.none => false
  | Option.some s => !s.isEmpty

/-- Python `a or b` for an optional list parameter (`None` and `[]` are
falsy). -/
def pyOrList {α : Type} (a : Option (List α)) (b : List α) : List α :=
  match a with
  | Option.none => b
  | Option.some l => if l.isEmpty then b else l

/-- Python `str.join` on a list of strings. -/
def pyJoin (sep : String) : List String → String
  | [] => ""
  | [x] => x
  | x :: y :: xs => x ++ sep ++ pyJoin sep (y :: xs)

/-- Python `sorted` on a list of ints (ports are naturals here); Python's
sort is a stable comparison sort, which on a total order agrees with
insertion sort. -/
def sortNat (l : List Nat) : List Nat := List.insertionSort (· ≤ ·) l

/-- Code-point lexicographic strict order on character lists (Python's
string ordering). -/
def charListLt : List Char → List Char → Bool
  | [], [] => false
  | [], _ :: _ => true
  | _ :: _, [] => false
  | a :: as, b :: bs =>
    if a.toNat < b.toNat then true
    else if b.toNat < a.toNat then false
    else charListLt as bs

/-- Python `<=` on strings (code-point lexicographic). -/
def pyStrLe (a b : String) : Bool := !charListLt b.data a.data

/-- Python `sorted` on a list of strings. -/
def sortStr (l : List String) : List String :=
  List.insertionSort (fun a b => pyStrLe a b = true) l

/-- The character of a single decimal digit. -/
def digitChar (d : Nat) : Char := Char.ofNat (48 + d)

/-- Fuel-driven accumulator loop producing the decimal digits of `n` in
front of `acc` (most significant first). -/
def natDigitsGo : Nat → Nat → List Char → List Char
  | 0, _, acc => acc
  | fuel + 1, n, acc =>
    if n < 10 then digitChar n :: acc
    else natDigitsGo fuel (n / 10) (digitChar (n % 10) :: acc)

/-- Python `str` of a natural number. -/
def pyNatStr (n : Nat) : String := ⟨natDigitsGo (n + 1) n []⟩

/-- Python `str` of an integer. -/
def pyIntStr (n : Int) : String :=
  if n < 0 then "-" ++ pyNatStr n.natAbs else pyNatStr n.natAbs

/-- Python string slicing `s[:n]` (by code points). -/
def strTake (s : String) (n : Nat) : String := ⟨s.data.take n⟩

/-- Accumulator loop of `pySplit`. -/
def pySplitGo (sep : Char) : List Char → List Char → List String
  | [], acc => [⟨acc.reverse⟩]
  | c :: cs, acc =>
    if c = sep then (⟨acc.reverse⟩ : String) :: pySplitGo sep cs []
    else pySplitGo sep cs (c :: acc)

/-- Python `str.split` with a one-character separator. -/
def pySplit (sep : Char) (s : String) : List String := pySplitGo sep s.data []

/-- Python `repr`/`str` of a list of ints, e.g. `"[1, 2, 3]"`. -/
def pyReprNatList (l : List Nat) : String :=
  "[" ++ pyJoin ", " (l.map pyNatStr) ++ "]"

/-! ## Selector resolvers (`_get_selector_config`, `_get_pod_selector_config`) -/

/-- `_get_selector_config`: node targeting fragment.  Returns
`{"node_name": ...}` when the node name is truthy, else
`{"node_selector": ...}` when the selector is truthy, else `{}`. -/
def get_selector_config (node_name node_selector : Val) : Config :=
  if pyTruthy node_name then [("node_name", node_name)]
  else if pyTruthy node_selector then [("node_selector", node_selector)]
  else []

/-- `_get_pod_selector_config`: pod targeting fragment.  Raises
`ValueError` when both arguments are falsy; otherwise the pod name takes
precedence over the label selector. -/
def get_pod_selector_config (pod_name label_selector : Val) :
    Except String Config :=
  if !pyTruthy pod_name && !pyTruthy label_selector then
    Except.error "Either pod_name or label_selector must be provided"
  else if pyTruthy pod_name then Except.ok [("pod_name", pod_name)]
  else Except.ok [("label_selector", label_selector)]

/-! ## Hog builders (`HogScenarios`) -/

/-- `HogScenarios.cpu_hog`: assembles the CPU hog configuration and its
fixed output filename.  Parameters appear in the source's order;
`scenario_dir` does not influence the configuration and is omitted. -/
def cpu_hog (duration : Int) (workers : Val) (image ns : String)
    (cpu_load_percentage : Int) (cpu_method : String)
    (node_name node_selector : Val) (number_of_nodes taints : Val) :
    String × Config :=
  ("cpu_hog.yaml",
    [("duration", Val.int duration),
     ("workers", workers),
     ("hog_type", Val.str "cpu"),
     ("image", Val.str image),
     ("namespace", Val.str ns),
     ("cpu_load_percentage", Val.int cpu_load_percentage),
     ("cpu_method", Val.str cpu_method),
     ("number_of_nodes", number_of_nodes),
     ("taints", pyOr taints (Val.list []))]
    ++ get_selector_config node_name node_selector)

/-- `HogScenarios.io_hog`: assembles the IO hog configuration and its fixed
output filename. -/
def io_hog (duration : Int) (workers : Val) (image ns : String)
    (io_block_size io_write_bytes io_target_pod_folder : String)
    (io_target_pod_volume : Val) (node_name node_selector : Val)
    (number_of_nodes taints : Val) : String × Config :=
  ("io_hog.yaml",
    [("duration", Val.int duration),
     ("workers", workers),
     ("hog_type", Val.str "io"),
     ("image", Val.str image),
     ("namespace", Val.str ns),
     ("io_block_size", Val.str io_block_size),
     ("io_write_bytes", Val.str io_write_bytes),
     ("io_target_pod_folder", Val.str io_target_pod_folder),
     ("io_target_pod_volume",
       pyOr io_target_pod_volume
         (Val.dict [("name", Val.str "node-volume"),
                    ("hostPath", Val.dict [("path", Val.str "/root")])])),
     ("number_of_nodes", number_of_nodes),
     ("taints", pyOr taints (Val.list []))]
    ++ get_selector_config node_name node_selector)

/-- `HogScenarios.memory_hog`: assembles the memory hog configuration and
its fixed output filename. -/
def memory_hog (duration : Int) (workers : Val) (image ns : String)
    (memory_vm_bytes : String) (node_name node_selector : Val)
    (number_of_nodes taints : Val) : String × Config :=
  ("memory_hog.yaml",
    [("duration", Val.int duration),
     ("workers", workers),
     ("hog_type", Val.str "memory"),
     ("image", Val.str image),
     ("namespace", Val.str ns),
     ("memory_vm_bytes", Val.str memory_vm_bytes),
     ("number_of_nodes", number_of_nodes),
     ("taints", pyOr taints (Val.list []))]
    ++ get_selector_config node_name node_selector)

/-- `HogScenarios.cpu_hog` invoked with every optional parameter at its
declared default value. -/
def cpu_hog_defaults : String × Config :=
  cpu_hog 60 (Val.str "") "quay.io/krkn-chaos/krkn-hog" "default" 90 "all"
    Val.none Val.none (Val.str "") Val.none

/-- `HogScenarios.io_hog` invoked with every optional parameter at its
declared default value. -/
def io_hog_defaults : String × Config :=
  io_hog 30 (Val.str "") "quay.io/krkn-chaos/krkn-hog" "default" "1m" "1g"
    "/hog-data" Val.none Val.none Val.none (Val.str "") Val.none

/-- `HogScenarios.memory_hog` invoked with every optional parameter at its
declared default value. -/
def memory_hog_defaults : String × Config :=
  memory_hog 60 (Val.str "") "quay.io/krkn-chaos/krkn-hog" "default" "90%"
    Val.none Val.none (Val.str "") Val.none

/-! ## Application outage builder (`ApplicationOutageScenarios`) -/

/-- `ApplicationOutageScenarios.application_outage`: duration is capped at
300 seconds; a selector-group list takes precedence over the single
selector.  Never raises. -/
def application_outage (duration : Int) (ns : String)
    (pod_selector pod_selectors block : Val) : String × Config :=
  ("application_outage.yaml",
    [("duration", Val.int (min 300 duration)),
     ("namespace", Val.str ns),
     ("block", pyOr block (Val.list [Val.str "Ingress", Val.str "Egress"]))]
    ++ (if pyTruthy pod_selectors then [("pod_selectors", pod_selectors)]
        else [("pod_selector", pyOr pod_selector (Val.dict []))]))

/-! ## `hashlib.md5` and `json.dumps` -/

/-- UTF-8 encoding of one character (Python `str.encode()`), as byte
values. -/
def utf8Char (c : Char) : List Nat :=
  let n := c.toNat
  if n < 128 then [n]
  else if n < 2048 then [192 + n / 64, 128 + n % 64]
  else if n < 65536 then [224 + n / 4096, 128 + n / 64 % 64, 128 + n % 64]
  else [240 + n / 262144, 128 + n / 4096 % 64, 128 + n / 64 % 64,
        128 + n % 64]

/-- UTF-8 encoding of a string as a byte list. -/
def strBytes (s : String) : List Nat := s.data.flatMap utf8Char

/-- 2^32, the modulus of MD5's word arithmetic. -/
def M32 : Nat := 4294967296

/-- Addition modulo 2^32. -/
def add32 (a b : Nat) : Nat := (a + b) % M32

/-- Bitwise complement within 32 bits (arguments are < 2^32). -/
def not32 (x : Nat) : Nat := 4294967295 - x

/-- Left rotation of a 32-bit word by `s` places. -/
def rotl32 (x s : Nat) : Nat := x * 2 ^ s % M32 + x / 2 ^ (32 - s)

/-- The MD5 round functions F, G, H, I. -/
def md5F (b c d : Nat) : Nat := Nat.lor (Nat.land b c) (Nat.land (not32 b) d)

/-- MD5 round function G. -/
def md5G (b c d : Nat) : Nat := Nat.lor (Nat.land b d) (Nat.land c (not32 d))

/-- MD5 round function H. -/
def md5H (b c d : Nat) : Nat := Nat.xor b (Nat.xor c d)

/-- MD5 round function I. -/
def md5I (b c d : Nat) : Nat := Nat.xor c (Nat.lor b (not32 d))

/-- The 64 MD5 sine-derived constants `K[i] = floor(2^32 * abs(sin(i+1)))`. -/
def md5K : List Nat :=
  [0xd76aa478, 0xe8c7b756, 0x242070db, 0xc1bdceee,
   0xf57c0faf, 0x4787c62a, 0xa8304613, 0xfd469501,
   0x698098d8, 0x8b44f7af, 0xffff5bb1, 0x895cd7be,
   0x6b901122, 0xfd987193, 0xa679438e, 0x49b40821,
   0xf61e2562, 0xc040b340, 0x265e5a51, 0xe9b6c7aa,
   0xd62f105d, 0x02441453, 0xd8a1e681, 0xe7d3fbc8,
   0x21e1cde6, 0xc33707d6, 0xf4d50d87, 0x455a14ed,
   0xa9e3e905, 0xfcefa3f8, 0x676f02d9, 0x8d2a4c8a,
   0xfffa3942, 0x8771f681, 0x6d9d6122, 0xfde5380c,
   0xa4beea44, 0x4bdecfa9, 0xf6bb4b60, 0xbebfbc70,
   0x289b7ec6, 0xeaa127fa, 0xd4ef3085, 0x04881d05,
   0xd9d4d039, 0xe6db99e5, 0x1fa27cf8, 0xc4ac5665,
   0xf4292244, 0x432aff97, 0xab9423a7, 0xfc93a039,
   0x655b59c3, 0x8f0ccc92, 0xffeff47d, 0x85845dd1,
   0x6fa87e4f, 0xfe2ce6e0, 0xa3014314, 0x4e0811a1,
   0xf7537e82, 0xbd3af235, 0x2ad7d2bb, 0xeb86d391]

/-- The 64 MD5 per-round left-rotation amounts. -/
def md5S : List Nat :=
  [7, 12, 17, 22, 7, 12, 17, 22, 7, 12, 17, 22, 7, 12, 17, 22,
   5, 9, 14, 20, 5, 9, 14, 20, 5, 9, 14, 20, 5, 9, 14, 20,
   4, 11, 16, 23, 4, 11, 16, 23, 4, 11, 16, 23, 4, 11, 16, 23,
   6, 10, 15, 21, 6, 10, 15, 21, 6, 10, 15, 21, 6, 10, 15, 21]

/-- One MD5 step: transforms the running `(A, B, C, D)` state with step
index `i` over the 16 message words `m`. -/
def md5Step (m : List Nat) (st : Nat × Nat × Nat × Nat) (i : Nat) :
    Nat × Nat × Nat × Nat :=
  let a := st.1
  let b := st.2.1
  let c := st.2.2.1
  let d := st.2.2.2
  let f :=
    if i < 16 then md5F b c d
    else if i < 32 then md5G b c d
    else if i < 48 then md5H b c d
    else md5I b c d
  let g :=
    if i < 16 then i
    else if i < 32 then (5 * i + 1) % 16
    else if i < 48 then (3 * i + 5) % 16
    else 7 * i % 16
  let tmp := add32 (add32 (add32 a f) (md5K.getD i 0)) (m.getD g 0)
  (d, add32 b (rotl32 tmp (md5S.getD i 0)), b, c)

/-- Group a byte list into little-endian 32-bit words. -/
def leWords : List Nat → List Nat
  | b0 :: b1 :: b2 :: b3 :: rest =>
    (b0 + 256 * b1 + 65536 * b2 + 16777216 * b3) :: leWords rest
  | _ => []

/-- The 8-byte little-endian encoding of the 64-bit message bit length. -/
def toLE8 (w : Nat) : List Nat :=
  [w % 256, w / 2 ^ 8 % 256, w / 2 ^ 16 % 256, w / 2 ^ 24 % 256,
   w / 2 ^ 32 % 256, w / 2 ^ 40 % 256, w / 2 ^ 48 % 256, w / 2 ^ 56 % 256]

/-- The 4-byte little-endian encoding of a 32-bit word. -/
def toLE4 (w : Nat) : List Nat :=
  [w % 256, w / 256 % 256, w / 65536 % 256, w / 16777216 % 256]

/-- MD5 padding: a `0x80` byte, zeros up to 56 mod 64, then the bit length
as 8 little-endian bytes. -/
def md5Pad (msg : List Nat) : List Nat :=
  msg ++ [128] ++ List.replicate ((120 - (msg.length + 1) % 64) % 64) 0
      ++ toLE8 (8 * msg.length % 2 ^ 64)

/-- Split a list into chunks of 64 elements. -/
def chunks64 (l : List Nat) : List (List Nat) :=
  if h : l.isEmpty then []
  else l.take 64 :: chunks64 (l.drop 64)
termination_by l.length
decreasing_by
  simp only [List.length_drop]
  cases l with
  | nil => simp at h
  | cons a t => simp; omega

/-- Process one 64-byte block, updating the MD5 chaining state. -/
def md5Block (st : Nat × Nat × Nat × Nat) (block : List Nat) :
    Nat × Nat × Nat × Nat :=
  let m := leWords block
  let r := (List.range 64).foldl (md5Step m) st
  (add32 st.1 r.1, add32 st.2.1 r.2.1, add32 st.2.2.1 r.2.2.1,
   add32 st.2.2.2 r.2.2.2)

/-- The MD5 digest of a byte list, as its 16 output bytes. -/
def md5Bytes (msg : List Nat) : List Nat :=
  let st := (chunks64 (md5Pad msg)).foldl md5Block
      (0x67452301, 0xefcdab89, 0x98badcfe, 0x10325476)
  toLE4 st.1 ++ toLE4 st.2.1 ++ toLE4 st.2.2.1 ++ toLE4 st.2.2.2

/-- A lowercase hexadecimal digit character. -/
def hexDigit (n : Nat) : Char :=
  if n < 10 then Char.ofNat (48 + n) else Char.ofNat (87 + n)

/-- The two lowercase hex characters of one byte. -/
def byteHex (b : Nat) : List Char := [hexDigit (b / 16), hexDigit (b % 16)]

/-- `hashlib.md5(s.encode()).hexdigest()`: the 32-character lowercase hex
digest of a string. -/
def md5hex (s : String) : String :=
  ⟨(md5Bytes (strBytes s)).flatMap byteHex⟩

/-- JSON escaping of one character (`json.dumps` with the default
`ensure_ascii=True`; characters outside the BMP do not occur in this
development's data). -/
def jsonChar (c : Char) : List Char :=
  if c = '"' then ['\\', '"']
  else if c = '\\' then ['\\', '\\']
  else if c.toNat < 32 ∨ c.toNat > 126 then
    '\\' :: 'u' :: (byteHex (c.toNat / 256) ++ byteHex (c.toNat % 256))
  else [c]

/-- A JSON string literal with quotes. -/
def jsonQuote (s : String) : String :=
  "\"" ++ (⟨s.data.flatMap jsonChar⟩ : String) ++ "\""

/-- Sort key/value string pairs by key (for `sort_keys=True`). -/
def sortPairsByKey (l : List (String × String)) : List (String × String) :=
  List.insertionSort (fun a b => pyStrLe a.1 b.1 = true) l

mutual

/-- `json.dumps(v, sort_keys=True)` with the default separators
`", "` and `": "`.  Dict values are serialized first and then arranged in
sorted key order, which yields the same output text as sorting first. -/
def jsonDump : Val → String
  | Val.str s => jsonQuote s
  | Val.int n => pyIntStr n
  | Val.bool b => if b then "true" else "false"
  | Val.none => "null"
  | Val.list xs => "[" ++ pyJoin ", " (jsonDumpList xs) ++ "]"
  | Val.dict xs =>
    "\x7b" ++ pyJoin ", "
      ((sortPairsByKey (jsonDumpPairs xs)).map
        (fun p => jsonQuote p.1 ++ ": " ++ p.2)) ++ "\x7d"

/-- Serialize each element of a JSON array. -/
def jsonDumpList : List Val → List String
  | [] => []
  | v :: vs => jsonDump v :: jsonDumpList vs

/-- Serialize each value of a JSON object, keeping its key. -/
def jsonDumpPairs : List (String × Val) → List (String × String)
  | [] => []
  | (k, v) :: ps => (k, jsonDump v) :: jsonDumpPairs ps

end

/-- A `Val` from an optional string (Python `None` or `str`). -/
def valOfOptStr : Option String → Val
  | Option.none => Val.none
  | Option.some s => Val.str s

/-- A `Val` from an optional list of strings. -/
def valOfOptStrList : Option (List String) → Val
  | Option.none => Val.none
  | Option.some l => Val.list (l.map Val.str)

/-- A `Val` from an optional list of ints. -/
def valOfOptNatList : Option (List Nat) → Val
  | Option.none => Val.none
  | Option.some l => Val.list (l.map (fun n => Val.int n))

/-! ## Network outage builders (`NetworkOutageScenarios`) -/

/-- `NetworkOutageScenarios.pod_egress_shaping`: raises via the pod
selector resolver, otherwise assembles the egress shaping configuration
with its fixed output filename. -/
def pod_egress_shaping (ns : String) (label_selector pod_name : Val)
    (network_params : Val) (execution_type : String)
    (instance_count wait_duration test_duration : Int) :
    Except String (String × Config) :=
  match get_pod_selector_config pod_name label_selector with
  | Except.error e => Except.error e
  | Except.ok frag =>
    Except.ok ("pod_egress_shaping.yaml",
      [("namespace", Val.str ns),
       ("network_params",
         pyOr network_params
           (Val.dict [("latency", Val.str "50ms"),
                      ("loss", Val.str "\x270.02%\x27"),
                      ("bandwidth", Val.str "100mbit")])),
       ("execution_type", Val.str execution_type),
       ("instance_count", Val.int instance_count),
       ("wait_duration", Val.int wait_duration),
       ("test_duration", Val.int test_duration)] ++ frag)

/-- `NetworkOutageScenarios.pod_ingress_shaping`: identical to egress
shaping except for template and filename. -/
def pod_ingress_shaping (ns : String) (label_selector pod_name : Val)
    (network_params : Val) (execution_type : String)
    (instance_count wait_duration test_duration : Int) :
    Except String (String × Config) :=
  match get_pod_selector_config pod_name label_selector with
  | Except.error e => Except.error e
  | Except.ok frag =>
    Except.ok ("pod_ingress_shaping.yaml",
      [("namespace", Val.str ns),
       ("network_params",
         pyOr network_params
           (Val.dict [("latency", Val.str "50ms"),
                      ("loss", Val.str "\x270.02%\x27"),
                      ("bandwidth", Val.str "100mbit")])),
       ("execution_type", Val.str execution_type),
       ("instance_count", Val.int instance_count),
       ("wait_duration", Val.int wait_duration),
       ("test_duration", Val.int test_duration)] ++ frag)

/-- `"_".join(sorted(direction or ["egress", "ingress"]))` from
`pod_network_outage`. -/
def outage_dir_str (direction : Option (List String)) : String :=
  pyJoin "_" (sortStr (pyOrList direction ["egress", "ingress"]))

/-- The 8-character digest a large port list contributes to the
`pod_network_outage` filename:
`hashlib.md5(str(sorted(ports)).encode()).hexdigest()[:8]`. -/
def ports_hash8 (ports : List Nat) : String :=
  strTake (md5hex (pyReprNatList (sortNat ports))) 8

/-- One direction's contribution to the `pod_network_outage` filename: the
literal sorted port listing for at most 20 ports, otherwise a count plus
8-character digest; empty or absent port lists contribute nothing. -/
def port_seg (tag : String) (ports : Option (List Nat)) : String :=
  match ports with
  | Option.none => ""
  | Option.some l =>
    if l.isEmpty then ""
    else if 20 < l.length then
      "_" ++ tag ++ "_range_" ++ pyNatStr l.length ++ "ports_"
        ++ ports_hash8 l
    else "_" ++ tag ++ "_" ++ pyJoin "-" ((sortNat l).map pyNatStr)

/-- The human-readable base filename of `pod_network_outage` (before the
200-character limit check). -/
def outage_base (direction : Option (List String))
    (ingress_ports egress_ports : Option (List Nat)) : String :=
  "pod_network_outage_" ++ outage_dir_str direction
    ++ port_seg "ingress" ingress_ports ++ port_seg "egress" egress_ports

/-- `config_for_hash` of `pod_network_outage`: the sub-configuration
hashed when the base filename exceeds 200 characters.  It contains the raw
`direction`, `ingress_ports`, `egress_ports`, `instance_count`,
`wait_duration` and `test_duration` arguments only. -/
def outage_hash_config (direction : Option (List String))
    (ingress_ports egress_ports : Option (List Nat))
    (instance_count wait_duration test_duration : Int) : Val :=
  Val.dict [("direction", valOfOptStrList direction),
            ("ingress_ports", valOfOptNatList ingress_ports),
            ("egress_ports", valOfOptNatList egress_ports),
            ("instance_count", Val.int instance_count),
            ("wait_duration", Val.int wait_duration),
            ("test_duration", Val.int test_duration)]

/-- The output filename of `pod_network_outage`: the base name, or — when
the base name exceeds 200 characters — a 12-character digest of
`config_for_hash` serialized with sorted keys. -/
def outage_filename (direction : Option (List String))
    (ingress_ports egress_ports : Option (List Nat))
    (instance_count wait_duration test_duration : Int) : String :=
  let base := outage_base direction ingress_ports egress_ports
  let base :=
    if 200 < base.length then
      "pod_network_outage_" ++ outage_dir_str direction ++ "_"
        ++ strTake (md5hex (jsonDump (outage_hash_config direction
            ingress_ports egress_ports instance_count wait_duration
            test_duration))) 12
    else base
  base ++ ".yaml"

/-- `NetworkOutageScenarios.pod_network_outage`: computes the
collision-avoiding filename, raises via the pod selector resolver, and
assembles the outage configuration. -/
def pod_network_outage (ns : String) (direction : Option (List String))
    (ingress_ports egress_ports : Option (List Nat))
    (pod_name label_selector : Val)
    (instance_count wait_duration test_duration : Int) :
    Except String (String × Config) :=
  match get_pod_selector_config pod_name label_selector with
  | Except.error e => Except.error e
  | Except.ok frag =>
    Except.ok (outage_filename direction ingress_ports egress_ports
        instance_count wait_duration test_duration,
      [("namespace", Val.str ns),
       ("direction",
         Val.list ((pyOrList direction ["egress", "ingress"]).map Val.str)),
       ("ingress_ports",
         Val.list ((pyOrList ingress_ports []).map (fun n => Val.int n))),
       ("egress_ports",
         Val.list ((pyOrList egress_ports []).map (fun n => Val.int n))),
       ("instance_count", Val.int instance_count),
       ("wait_duration", Val.int wait_duration),
       ("test_duration", Val.int test_duration)] ++ frag)

/-- `NetworkOutageScenarios.pod_network_chaos`: defaults to the worker-node
label selector when no targeting is supplied; the configuration carries at
most one of `node_name` / `label_selector`; the filename is an 8-character
digest of the configuration serialized with sorted keys. -/
def pod_network_chaos (duration : Int)
    (node_name label_selector : Option String) (instance_count : Int)
    (interfaces : Option (List String)) (execution : String)
    (egress image : Val) : String × Config :=
  let label_selector :=
    if !pyTruthyStr node_name && !pyTruthyStr label_selector then
      Option.some "node-role.kubernetes.io/worker"
    else label_selector
  let config : Config :=
    [("duration", Val.int duration),
     ("instance_count", Val.int instance_count),
     ("interfaces", Val.list ((pyOrList interfaces ["ens192"]).map Val.str)),
     ("execution", Val.str execution),
     ("egress",
       pyOr egress (Val.dict [("latency", Val.str "25ms"),
                              ("loss", Val.str "1%")])),
     ("image", pyOr image (Val.str "quay.io/krkn-chaos/krkn:tools"))]
    ++ (if pyTruthyStr node_name then
          [("node_name", valOfOptStr node_name)]
        else if pyTruthyStr label_selector then
          [("label_selector", valOfOptStr label_selector)]
        else [])
  let config_hash := strTake (md5hex (jsonDump (Val.dict config))) 8
  ("network_chaos_" ++ config_hash ++ ".yaml", config)

/-! ## Container builders (`ContainerScenarios`) -/

/-- The fixed catalog of eight built-in storage-component kill scenarios
substituted by `container_kill` when `scenarios` is an empty list; the OSD
entry is placed last. -/
def container_kill_catalog (default_ns : Val)
    (container_name kill_signal : String)
    (instance_count wait_duration : Int) : List Val :=
  [Val.dict [("name", Val.str ("nodeplugin_" ++ kill_signal.toLower ++ "_kill")),
             ("namespace", default_ns),
             ("label_selector",
               Val.str "app=openshift-storage.cephfs.csi.ceph.com-nodeplugin"),
             ("container_name", Val.str container_name),
             ("kill_signal", Val.str kill_signal),
             ("count", Val.int instance_count),
             ("expected_recovery_time", Val.int (Int.fdiv wait_duration 2)),
             ("description", Val.str "CephFS Node Plugin")],
   Val.dict [("name", Val.str ("mgr_" ++ kill_signal.toLower ++ "_kill")),
             ("namespace", default_ns),
             ("label_selector", Val.str "app=rook-ceph-mgr"),
             ("container_name", Val.str container_name),
             ("kill_signal", Val.str kill_signal),
             ("count", Val.int instance_count),
             ("expected_recovery_time", Val.int (Int.fdiv wait_duration 2)),
             ("description", Val.str "MGR")],
   Val.dict [("name", Val.str ("rbd_nodeplugin_" ++ kill_signal.toLower ++ "_kill")),
             ("namespace", default_ns),
             ("label_selector",
               Val.str "app=openshift-storage.rbd.csi.ceph.com-nodeplugin"),
             ("container_name", Val.str container_name),
             ("kill_signal", Val.str kill_signal),
             ("count", Val.int instance_count),
             ("expected_recovery_time", Val.int (Int.fdiv wait_duration 2)),
             ("description", Val.str "RBD Node Plugin")],
   Val.dict [("name", Val.str ("rgw_" ++ kill_signal.toLower ++ "_kill")),
             ("namespace", default_ns),
             ("label_selector", Val.str "app=rook-ceph-rgw"),
             ("container_name", Val.str container_name),
             ("kill_signal", Val.str kill_signal),
             ("count", Val.int instance_count),
             ("expected_recovery_time", Val.int (Int.fdiv wait_duration 2)),
             ("description", Val.str "RGW (RADOS Gateway)")],
   Val.dict [("name", Val.str ("noobaa_" ++ kill_signal.toLower ++ "_kill")),
             ("namespace", default_ns),
             ("label_selector", Val.str "app=noobaa"),
             ("container_name", Val.str container_name),
             ("kill_signal", Val.str kill_signal),
             ("count", Val.int instance_count),
             ("expected_recovery_time", Val.int (Int.fdiv wait_duration 2)),
             ("description", Val.str "NooBaa")],
   Val.dict [("name", Val.str ("cephfs_ctrlplugin_" ++ kill_signal.toLower ++ "_kill")),
             ("namespace", default_ns),
             ("label_selector",
               Val.str "app=openshift-storage.cephfs.csi.ceph.com-ctrlplugin"),
             ("container_name", Val.str container_name),
             ("kill_signal", Val.str kill_signal),
             ("count", Val.int instance_count),
             ("expected_recovery_time", Val.int (Int.fdiv wait_duration 2)),
             ("description", Val.str "CephFS Control Plugin")],
   Val.dict [("name", Val.str ("rbd_ctrlplugin_" ++ kill_signal.toLower ++ "_kill")),
             ("namespace", default_ns),
             ("label_selector",
               Val.str "app=openshift-storage.rbd.csi.ceph.com-ctrlplugin"),
             ("container_name", Val.str container_name),
             ("kill_signal", Val.str kill_signal),
             ("count", Val.int instance_count),
             ("expected_recovery_time", Val.int (Int.fdiv wait_duration 2)),
             ("description", Val.str "RBD Control Plugin")],
   Val.dict [("name", Val.str ("osd_" ++ kill_signal.toLower ++ "_kill")),
             ("namespace", default_ns),
             ("label_selector", Val.str "app=rook-ceph-osd"),
             ("container_name", Val.str container_name),
             ("kill_signal", Val.str kill_signal),
             ("count", Val.int instance_count),
             ("expected_recovery_time", Val.int (Int.fdiv wait_duration 2)),
             ("description", Val.str "OSD")]]

/-- `ContainerScenarios.container_kill`: unified mode when `scenarios` is
not `None` (substituting the built-in catalog for an empty list), else the
single-scenario mode requiring a namespace and a pod selector. -/
def container_kill (ns : Val) (label_selector pod_name : Val)
    (container_name kill_signal : String)
    (instance_count wait_duration : Int)
    (scenarios : Option (List Val)) : Except String (String × Config) :=
  match scenarios with
  | Option.some scs =>
    let scs :=
      if scs.isEmpty then
        container_kill_catalog (pyOr ns (Val.str "openshift-storage"))
          container_name kill_signal instance_count wait_duration
      else scs
    Except.ok ("container_kill.yaml", [("scenarios", Val.list scs)])
  | Option.none =>
    if !pyTruthy ns then
      Except.error "namespace is required for single scenario"
    else if !pyTruthy pod_name && !pyTruthy label_selector then
      Except.error
        "Either pod_name or label_selector must be provided for single scenario"
    else
      match get_pod_selector_config pod_name label_selector with
      | Except.error e => Except.error e
      | Except.ok frag =>
        Except.ok ("container_kill.yaml",
          [("namespace", ns),
           ("container_name", Val.str container_name),
           ("kill_signal", Val.str kill_signal),
           ("instance_count", Val.int instance_count),
           ("wait_duration", Val.int wait_duration)] ++ frag)

/-- `ContainerScenarios.container_pause`: requires a pod selector; a bare
pod name is rewritten into the field-equality label expression
`metadata.name=<pod>`; the scenario name is auto-derived when absent, and
the recovery time falls back to `wait_duration`, or to 120 when
`wait_duration` equals its literal default 300. -/
def container_pause (ns : String) (label_selector pod_name : Option String)
    (container_name : String) (pause_seconds instance_count wait_duration : Int)
    (scenario_name : Option String) (expected_recovery_time : Option Int) :
    Except String (String × Config) :=
  if !pyTruthyStr pod_name && !pyTruthyStr label_selector then
    Except.error "Either pod_name or label_selector must be provided"
  else
    let label_selector :=
      if pyTruthyStr pod_name && !pyTruthyStr label_selector then
        Option.some ("metadata.name="
          ++ (match pod_name with
              | Option.some p => p
              | Option.none => ""))
      else label_selector
    -- `str(label_selector)` for the containment test; Python renders
    -- `None` as the text "None".
    let lsStr :=
      match label_selector with
      | Option.some s => s
      | Option.none => "None"
    let scenario_name2 :=
      if pyTruthyStr scenario_name then
        (match scenario_name with
         | Option.some s => s
         | Option.none => "")
      else
        let component :=
          if lsStr.data.contains '=' then (pySplit '=' lsStr).getLast!
          else "container"
        "container_pause_" ++ component ++ "_" ++ pyIntStr pause_seconds ++ "s"
    let ert :=
      match expected_recovery_time with
      | Option.none => if wait_duration ≠ 300 then wait_duration else 120
      | Option.some t => t
    Except.ok ("container_pause.yaml",
      [("scenario_name", Val.str scenario_name2),
       ("namespace", Val.str ns),
       ("label_selector", valOfOptStr label_selector),
       ("container_name", Val.str container_name),
       ("pause_seconds", Val.int pause_seconds),
       ("count", Val.int instance_count),
       ("expected_recovery_time", Val.int ert)])

/-! ## The write effect (`TemplateWriter.write_to_file`) -/

/-- Runs a builder against an explicit filesystem trace: every builder of
the source performs its single `write_to_file` as its final statement,
after all validation, so an error leaves the trace untouched and success
appends exactly one written artifact (filename and configuration). -/
def runScenario (r : Except String (String × Config))
    (fs : List (String × Config)) :
    List (String × Config) × Except String String :=
  match r with
  | Except.error e => (fs, Except.error e)
  | Except.ok fc => (fs ++ [fc], Except.ok fc.1)

/-! ## Proof-side helper definitions -/

/-- The configuration emitted by a builder result (empty on the error
path, where nothing is rendered). -/
def cfgOf (r : Except String (String × Config)) : Config :=
  match r with
  | Except.ok fc => fc.2
  | Except.error _ => []

/-- Two port lists that differ in exactly one port: both consist of a
common prefix, one differing element, and a common suffix. -/
def oneDiff (l1 l2 : List Nat) : Prop :=
  ∃ p q x y, x ≠ y ∧ l1 = p ++ x :: q ∧ l2 = p ++ y :: q

/-- A 22-port ingress list family: ports 0..20 plus one varying port. -/
def portFamily (k : Nat) : List Nat := List.range 21 ++ [21 + k]

/-- The value of the first four bytes of a byte list, little endian. -/
def first4val : List Nat → Nat
  | b0 :: b1 :: b2 :: b3 :: _ => b0 + 256 * b1 + 65536 * b2 + 16777216 * b3
  | _ => 0

/-- The numeric value of a decimal digit string. -/
def digitsVal (cs : List Char) : Nat :=
  cs.foldl (fun a c => 10 * a + (c.toNat - 48)) 0

/-- Character-list join with a single separator character (the `List Char`
image of `pyJoin` for a one-character separator). -/
def joinChars (sep : Char) : List (List Char) → List Char
  | [] => []
  | [x] => x
  | x :: y :: xs => x ++ sep :: joinChars sep (y :: xs)

/-- Twenty 12-digit ports, long enough to push the human-readable
`pod_network_outage` base name past 200 characters while staying at the
literal (at most 20 ports) naming tier. -/
def bigPorts : List Nat := (List.range 20).map (fun i => 100000000001 + i)

/-! ## C10 -/

/-- C10: the selector resolvers treat empty-but-supplied values as absent:
`pod_name=""` with `label_selector={}` raises exactly as if both were
omitted, and the node resolver returns the empty fragment for
`node_name=""` with `node_selector={}`. -/
theorem empty_values_treated_absent :
    get_pod_selector_config (Val.str "") (Val.dict [])
        = Except.error "Either pod_name or label_selector must be provided"
      ∧ get_selector_config (Val.str "") (Val.dict []) = [] :=
  ⟨rfl, rfl⟩

/-! ## C2 -/

/-- C2: each resource-hog builder invoked with every optional parameter
omitted carries exactly the documented defaults: CPU `duration=60`,
`cpu_load_percentage=90`, `cpu_method="all"`, `namespace="default"`; IO
`duration=30`, `io_block_size="1m"`, `io_write_bytes="1g"`,
`io_target_pod_folder="/hog-data"`; memory `duration=60`,
`memory_vm_bytes="90%"`. -/
theorem hog_defaults :
    (cpu_hog_defaults.2.lookup "duration" = Option.some (Val.int 60)
      ∧ cpu_hog_defaults.2.lookup "cpu_load_percentage"
          = Option.some (Val.int 90)
      ∧ cpu_hog_defaults.2.lookup "cpu_method" = Option.some (Val.str "all")
      ∧ cpu_hog_defaults.2.lookup "namespace"
          = Option.some (Val.str "default"))
    ∧ (io_hog_defaults.2.lookup "duration" = Option.some (Val.int 30)
      ∧ io_hog_defaults.2.lookup "io_block_size"
          = Option.some (Val.str "1m")
      ∧ io_hog_defaults.2.lookup "io_write_bytes"
          = Option.some (Val.str "1g")
      ∧ io_hog_defaults.2.lookup "io_target_pod_folder"
          = Option.some (Val.str "/hog-data"))
    ∧ (memory_hog_defaults.2.lookup "duration" = Option.some (Val.int 60)
      ∧ memory_hog_defaults.2.lookup "memory_vm_bytes"
          = Option.some (Val.str "90%")) :=
  ⟨⟨rfl, rfl, rfl, rfl⟩, ⟨rfl, rfl, rfl, rfl⟩, ⟨rfl, rfl⟩⟩

/-! ## C7 -/

/-- C7: the application-outage builder always emits
`duration = min(300, requested)` — 400 is capped to 300, 100 passes
through — and never rejects an over-limit request (it is total and always
returns a configuration). -/
theorem application_outage_duration_clamp :
    (∀ (d : Int) (ns : String) (ps pss blk : Val),
        (application_outage d ns ps pss blk).2.lookup "duration"
          = Option.some (Val.int (min 300 d)))
    ∧ (application_outage 400 "default" Val.none Val.none Val.none).2.lookup
        "duration" = Option.some (Val.int 300)
    ∧ (application_outage 100 "default" Val.none Val.none Val.none).2.lookup
        "duration" = Option.some (Val.int 100) :=
  ⟨fun _ _ _ _ _ => rfl, rfl, rfl⟩

/-! ## C6 -/

/-- C6: container-kill in unified mode with an empty scenario list emits
the fixed catalog of exactly 8 built-in storage-component scenarios, and
the object-storage-daemon (OSD) entry sits in the last position. -/
theorem container_kill_default_catalog (ns ls pn : Val) (cn ks : String)
    (ic wd : Int) :
    ∃ l : List Val,
      container_kill ns ls pn cn ks ic wd (Option.some [])
          = Except.ok ("container_kill.yaml", [("scenarios", Val.list l)])
        ∧ l.length = 8
        ∧ ∃ osd : List (String × Val),
            l.getLast? = Option.some (Val.dict osd)
              ∧ osd.lookup "label_selector"
                  = Option.some (Val.str "app=rook-ceph-osd")
              ∧ osd.lookup "description" = Option.some (Val.str "OSD") := by
  refine ⟨container_kill_catalog (pyOr ns (Val.str "openshift-storage"))
      cn ks ic wd, rfl, rfl, ?_⟩
  exact ⟨_, rfl, rfl, rfl⟩

/-! ## C5 -/

/-- C5: the node-level network chaos builder defaults to the worker-node
role label selector when neither node name nor label selector is supplied,
and its configuration never carries both `node_name` and `label_selector`
keys at once. -/
theorem network_chaos_selector_invariant (duration : Int)
    (nn ls : Option String) (ic : Int) (ifs : Option (List String))
    (exe : String) (eg img : Val) :
    (pyTruthyStr nn = false → pyTruthyStr ls = false →
       (pod_network_chaos duration nn ls ic ifs exe eg img).2.lookup
           "label_selector"
           = Option.some (Val.str "node-role.kubernetes.io/worker")
         ∧ (pod_network_chaos duration nn ls ic ifs exe eg img).2.lookup
             "node_name" = Option.none)
    ∧ (((pod_network_chaos duration nn ls ic ifs exe eg img).2.lookup
          "node_name").isSome = false
       ∨ ((pod_network_chaos duration nn ls ic ifs exe eg img).2.lookup
            "label_selector").isSome = false) := by
  have hw : pyTruthyStr (Option.some "node-role.kubernetes.io/worker") = true :=
    rfl
  constructor
  · intro hn hl
    simp [pod_network_chaos, hn, hl, hw, List.lookup, valOfOptStr]
  · cases hn : pyTruthyStr nn <;> cases hl : pyTruthyStr ls <;>
      simp [pod_network_chaos, hn, hl, hw, List.lookup, valOfOptStr]

/-- C5 witness: with no targeting supplied at all, the emitted
configuration selects worker nodes. -/
theorem network_chaos_selector_invariant_witness :
    (pod_network_chaos 300 Option.none Option.none 1 Option.none "serial"
        Val.none Val.none).2.lookup "label_selector"
      = Option.some (Val.str "node-role.kubernetes.io/worker") :=
  ((network_chaos_selector_invariant 300 Option.none Option.none 1
      Option.none "serial" Val.none Val.none).1 rfl rfl).1

/-! ## C8 -/

/-- C8: container-pause called with only `pod_name="p1"` rewrites the
selector to `metadata.name=p1`, emits no `pod_name` key, auto-derives the
scenario name `container_pause_p1_<pause>s`, and defaults the recovery
time to `wait_duration` unless that equals the literal default 300, in
which case 120 is used. -/
theorem container_pause_pod_name_rewrite (ns cn : String) (ps ic wd : Int) :
    container_pause ns Option.none (Option.some "p1") cn ps ic wd
        Option.none Option.none
        = Except.ok ("container_pause.yaml",
          [("scenario_name",
             Val.str ("container_pause_p1_" ++ pyIntStr ps ++ "s")),
           ("namespace", Val.str ns),
           ("label_selector", Val.str "metadata.name=p1"),
           ("container_name", Val.str cn),
           ("pause_seconds", Val.int ps),
           ("count", Val.int ic),
           ("expected_recovery_time",
             Val.int (if wd ≠ 300 then wd else 120))])
      ∧ (cfgOf (container_pause ns Option.none (Option.some "p1") cn ps ic
          wd Option.none Option.none)).lookup "pod_name" = Option.none :=
  ⟨rfl, rfl⟩

/-! ## C9 -/

/-- Failing builder runs leave the write trace untouched (every builder
validates before its final `write_to_file`). -/
theorem runScenario_error_preserves (r : Except String (String × Config))
    (fs : List (String × Config)) (e : String)
    (h : (runScenario r fs).2 = Except.error e) :
    (runScenario r fs).1 = fs := by
  cases r with
  | error _ => rfl
  | ok fc => simp [runScenario] at h

/-- C9: whenever the container-kill or egress-shaping or container-pause
builder raises an `InvalidArgument`-kind error, the filesystem trace is
unchanged — the error precedes any write, and no partial artifact
exists. -/
theorem invalid_argument_before_write :
    (∀ (ns ls pn : Val) (cn ks : String) (ic wd : Int)
        (scs : Option (List Val)) (fs : List (String × Config)) (e : String),
        (runScenario (container_kill ns ls pn cn ks ic wd scs) fs).2
            = Except.error e →
        (runScenario (container_kill ns ls pn cn ks ic wd scs) fs).1 = fs)
    ∧ (∀ (ns : String) (ls pn np : Val) (et : String) (ic wd td : Int)
        (fs : List (String × Config)) (e : String),
        (runScenario (pod_egress_shaping ns ls pn np et ic wd td) fs).2
            = Except.error e →
        (runScenario (pod_egress_shaping ns ls pn np et ic wd td) fs).1 = fs)
    ∧ (∀ (ns : String) (ls pn : Option String) (cn : String) (ps ic wd : Int)
        (sn : Option String) (ert : Option Int)
        (fs : List (String × Config)) (e : String),
        (runScenario (container_pause ns ls pn cn ps ic wd sn ert) fs).2
            = Except.error e →
        (runScenario (container_pause ns ls pn cn ps ic wd sn ert) fs).1
          = fs) :=
  ⟨fun _ _ _ _ _ _ _ _ fs e h => runScenario_error_preserves _ fs e h,
   fun _ _ _ _ _ _ _ _ fs e h => runScenario_error_preserves _ fs e h,
   fun _ _ _ _ _ _ _ _ _ fs e h => runScenario_error_preserves _ fs e h⟩

/-- C9 witness: a single-scenario container-kill call without a namespace
errors out and writes nothing. -/
theorem invalid_argument_before_write_witness :
    (runScenario (container_kill Val.none Val.none Val.none "" "SIGKILL" 1
        300 Option.none) []).1 = ([] : List (String × Config)) :=
  invalid_argument_before_write.1 Val.none Val.none Val.none "" "SIGKILL" 1
    300 Option.none [] "namespace is required for single scenario" rfl

/-! ## C1 -/

/-- C1 counterexample: single-scenario container-kill raises the message
"Either pod_name or label_selector must be provided for single scenario",
which is not the claimed message "Either pod_name or label_selector must
be provided". -/
theorem container_kill_selector_message_counterexample :
    container_kill (Val.str "ns") Val.none Val.none "" "SIGKILL" 1 300
        Option.none
        = Except.error
            "Either pod_name or label_selector must be provided for single scenario"
      ∧ "Either pod_name or label_selector must be provided for single scenario"
          ≠ "Either pod_name or label_selector must be provided" :=
  ⟨rfl, by decide⟩

/-- C1 (amended): the resolver raises "Either pod_name or label_selector
must be provided" iff both targeting arguments are falsy, returning
`{"pod_name": name}` (name precedence) or `{"label_selector": criteria}`
otherwise; egress shaping, ingress shaping, network outage and container
pause raise exactly that message iff both are falsy; single-scenario
container kill raises its variant message, suffixed " for single
scenario", iff both are falsy and a namespace was supplied — a falsy
namespace raises "namespace is required for single scenario" first. -/
theorem pod_selector_error_iff :
    (∀ pn ls : Val,
        (get_pod_selector_config pn ls
            = Except.error "Either pod_name or label_selector must be provided"
          ↔ pyTruthy pn = false ∧ pyTruthy ls = false)
        ∧ (pyTruthy pn = true →
            get_pod_selector_config pn ls = Except.ok [("pod_name", pn)])
        ∧ (pyTruthy pn = false → pyTruthy ls = true →
            get_pod_selector_config pn ls
              = Except.ok [("label_selector", ls)]))
    ∧ (∀ (ns : String) (ls pn np : Val) (et : String) (ic wd td : Int),
        pod_egress_shaping ns ls pn np et ic wd td
            = Except.error "Either pod_name or label_selector must be provided"
          ↔ pyTruthy pn = false ∧ pyTruthy ls = false)
    ∧ (∀ (ns : String) (ls pn np : Val) (et : String) (ic wd td : Int),
        pod_ingress_shaping ns ls pn np et ic wd td
            = Except.error "Either pod_name or label_selector must be provided"
          ↔ pyTruthy pn = false ∧ pyTruthy ls = false)
    ∧ (∀ (ns : String) (d : Option (List String))
        (ip ep : Option (List Nat)) (pn ls : Val) (ic wd td : Int),
        pod_network_outage ns d ip ep pn ls ic wd td
            = Except.error "Either pod_name or label_selector must be provided"
          ↔ pyTruthy pn = false ∧ pyTruthy ls = false)
    ∧ (∀ (ns : String) (ls pn : Option String) (cn : String)
        (ps ic wd : Int) (sn : Option String) (ert : Option Int),
        container_pause ns ls pn cn ps ic wd sn ert
            = Except.error "Either pod_name or label_selector must be provided"
          ↔ pyTruthyStr pn = false ∧ pyTruthyStr ls = false)
    ∧ (∀ (ns ls pn : Val) (cn ks : String) (ic wd : Int),
        (pyTruthy ns = true →
          (container_kill ns ls pn cn ks ic wd Option.none
              = Except.error
                  "Either pod_name or label_selector must be provided for single scenario"
            ↔ pyTruthy pn = false ∧ pyTruthy ls = false))
        ∧ (pyTruthy ns = false →
            container_kill ns ls pn cn ks ic wd Option.none
              = Except.error "namespace is required for single scenario")) := by
  refine ⟨fun pn ls => ?_, fun ns ls pn np et ic wd td => ?_,
    fun ns ls pn np et ic wd td => ?_, fun ns d ip ep pn ls ic wd td => ?_,
    fun ns ls pn cn ps ic wd sn ert => ?_, fun ns ls pn cn ks ic wd => ?_⟩
  · cases h1 : pyTruthy pn <;> cases h2 : pyTruthy ls <;>
      simp [get_pod_selector_config, h1, h2]
  · cases h1 : pyTruthy pn <;> cases h2 : pyTruthy ls <;>
      simp [pod_egress_shaping, get_pod_selector_config, h1, h2]
  · cases h1 : pyTruthy pn <;> cases h2 : pyTruthy ls <;>
      simp [pod_ingress_shaping, get_pod_selector_config, h1, h2]
  · cases h1 : pyTruthy pn <;> cases h2 : pyTruthy ls <;>
      simp [pod_network_outage, get_pod_selector_config, h1, h2]
  · cases h1 : pyTruthyStr pn <;> cases h2 : pyTruthyStr ls <;>
      simp [container_pause, h1, h2]
  · constructor
    · intro hns
      cases h1 : pyTruthy pn <;> cases h2 : pyTruthy ls <;>
        simp [container_kill, get_pod_selector_config, hns, h1, h2]
    · intro hns
      simp [container_kill, hns]

/-- C1 witness: the resolver with both arguments `None` raises, and the
single-scenario container-kill with a falsy namespace raises the namespace
error. -/
theorem pod_selector_error_iff_witness :
    get_pod_selector_config Val.none Val.none
        = Except.error "Either pod_name or label_selector must be provided"
      ∧ container_kill Val.none Val.none Val.none "" "SIGKILL" 1 300
          Option.none
          = Except.error "namespace is required for single scenario" :=
  ⟨((pod_selector_error_iff.1 Val.none Val.none).1).mpr ⟨rfl, rfl⟩,
   (pod_selector_error_iff.2.2.2.2.2 Val.none Val.none Val.none "" "SIGKILL"
       1 300).2 rfl⟩

/-! ## C3 -/

/-- C3 counterexample: two `pod_network_outage` calls whose base names
exceed 200 characters and whose configurations differ (distinct
namespaces) still collide on the same hashed filename, because the hash
covers only six parameters, not the full configuration. -/
theorem outage_long_name_collision_counterexample :
    200 < (outage_base Option.none (Option.some bigPorts) Option.none).length
    ∧ Except.map Prod.fst
        (pod_network_outage "a" Option.none (Option.some bigPorts)
          Option.none Val.none (Val.dict [("app", Val.str "x")]) 1 300 120)
      = Except.map Prod.fst
        (pod_network_outage "b" Option.none (Option.some bigPorts)
          Option.none Val.none (Val.dict [("app", Val.str "x")]) 1 300 120)
    ∧ cfgOf (pod_network_outage "a" Option.none (Option.some bigPorts)
          Option.none Val.none (Val.dict [("app", Val.str "x")]) 1 300 120)
      ≠ cfgOf (pod_network_outage "b" Option.none (Option.some bigPorts)
          Option.none Val.none (Val.dict [("app", Val.str "x")]) 1 300 120) := by
  refine ⟨by decide, rfl, ?_⟩
  intro h
  have h1 := congrArg (List.lookup "namespace") h
  have ha : (cfgOf (pod_network_outage "a" Option.none
      (Option.some bigPorts) Option.none Val.none
      (Val.dict [("app", Val.str "x")]) 1 300 120)).lookup "namespace"
      = Option.some (Val.str "a") := rfl
  have hb : (cfgOf (pod_network_outage "b" Option.none
      (Option.some bigPorts) Option.none Val.none
      (Val.dict [("app", Val.str "x")]) 1 300 120)).lookup "namespace"
      = Option.some (Val.str "b") := rfl
  rw [ha, hb] at h1
  injection h1 with h2
  injection h2 with h3
  exact absurd h3 (by decide)

/-- C3 (amended): when the base name exceeds 200 characters, the filename
is the direction prefix plus a 12-character digest of the canonicalized
sub-configuration holding only direction, port lists, instance count and
wait/test durations (serialized with sorted keys); namespace and pod
selector are not part of the hash, so the filename is a function of those
six parameters alone. -/
theorem outage_long_name_hash_fallback (d : Option (List String))
    (ip ep : Option (List Nat)) (ic wd td : Int)
    (h : 200 < (outage_base d ip ep).length) :
    outage_filename d ip ep ic wd td
      = "pod_network_outage_" ++ outage_dir_str d ++ "_"
        ++ strTake (md5hex (jsonDump (outage_hash_config d ip ep ic wd td)))
            12 ++ ".yaml" := by
  simp only [outage_filename]
  rw [if_pos h]

/-- C3 witness: the long-name fallback fires on twenty 12-digit ports. -/
theorem outage_long_name_hash_fallback_witness :
    outage_filename Option.none (Option.some bigPorts) Option.none 1 300 120
      = "pod_network_outage_" ++ outage_dir_str Option.none ++ "_"
        ++ strTake (md5hex (jsonDump (outage_hash_config Option.none
            (Option.some bigPorts) Option.none 1 300 120))) 12 ++ ".yaml" :=
  outage_long_name_hash_fallback Option.none (Option.some bigPorts)
    Option.none 1 300 120 (by decide)

/-! ## String and digit lemmas for the filename analysis -/

/-- Left cancellation for string append. -/
theorem strApp_left_cancel {a b c : String} (h : a ++ b = a ++ c) : b = c := by
  apply String.ext
  have h2 := congrArg String.data h
  simp only [String.data_append] at h2
  exact List.append_cancel_left h2

/-- Right cancellation for string append. -/
theorem strApp_right_cancel {a b c : String} (h : a ++ c = b ++ c) : a = b := by
  apply String.ext
  have h2 := congrArg String.data h
  simp only [String.data_append] at h2
  exact List.append_cancel_right h2

/-- The code point of a digit character. -/
theorem digitChar_toNat (d : Nat) (h : d < 10) :
    (digitChar d).toNat = 48 + d := by
  interval_cases d <;> rfl

/-- The digit accumulator ignores its fuel beyond `n` and appends to the
accumulator. -/
theorem natDigitsGo_acc (n : Nat) :
    ∀ (fuel : Nat) (acc : List Char), n < fuel →
      natDigitsGo fuel n acc = natDigitsGo (n + 1) n [] ++ acc := by
  induction n using Nat.strong_induction_on with
  | _ n ih =>
    intro fuel acc hf
    match fuel, hf with
    | fuel + 1, _ =>
      by_cases h10 : n < 10
      · simp [natDigitsGo, h10]
      · have hdiv : n / 10 < n := Nat.div_lt_self (by omega) (by omega)
        simp only [natDigitsGo, h10, if_false]
        rw [ih (n / 10) hdiv fuel _ (by omega),
          ih (n / 10) hdiv n _ (by omega)]
        simp

/-- The recurrence of the decimal representation. -/
theorem pyNatStr_data_rec (n : Nat) :
    (pyNatStr n).data = if n < 10 then [digitChar n]
      else (pyNatStr (n / 10)).data ++ [digitChar (n % 10)] := by
  by_cases h : n < 10
  · simp [pyNatStr, natDigitsGo, h]
  · have hdiv : n / 10 < n := Nat.div_lt_self (by omega) (by omega)
    rw [if_neg h]
    show natDigitsGo (n + 1) n [] = _
    have hstep : natDigitsGo (n + 1) n []
        = natDigitsGo n (n / 10) [digitChar (n % 10)] := by
      simp [natDigitsGo, h]
    rw [hstep, natDigitsGo_acc (n / 10) n [digitChar (n % 10)] (by omega)]
    rfl

/-- Every character of a decimal representation is a digit. -/
theorem pyNatStr_digits (n : Nat) :
    ∀ c ∈ (pyNatStr n).data, 48 ≤ c.toNat ∧ c.toNat ≤ 57 := by
  induction n using Nat.strong_induction_on with
  | _ n ih =>
    rw [pyNatStr_data_rec]
    by_cases h : n < 10
    · simp only [if_pos h, List.mem_singleton]
      intro c hc
      subst hc
      rw [digitChar_toNat n h]
      omega
    · simp only [if_neg h]
      intro c hc
      rcases List.mem_append.mp hc with hm | hm
      · exact ih (n / 10) (Nat.div_lt_self (by omega) (by omega)) c hm
      · rw [List.mem_singleton.mp hm, digitChar_toNat (n % 10) (by omega)]
        omega

/-- The decimal representation is never empty. -/
theorem pyNatStr_ne_nil (n : Nat) : (pyNatStr n).data ≠ [] := by
  rw [pyNatStr_data_rec]
  by_cases h : n < 10 <;> simp [h]

/-- A dash never occurs in a decimal representation. -/
theorem pyNatStr_no_dash (n : Nat) : '-' ∉ (pyNatStr n).data := by
  intro hm
  have h := pyNatStr_digits n '-' hm
  have h45 : ('-').toNat = 45 := rfl
  omega

/-- Reading the decimal representation back yields the number. -/
theorem digitsVal_pyNatStr (n : Nat) : digitsVal (pyNatStr n).data = n := by
  induction n using Nat.strong_induction_on with
  | _ n ih =>
    rw [pyNatStr_data_rec]
    by_cases h : n < 10
    · simp [if_pos h, digitsVal, digitChar_toNat n h]
    · rw [if_neg h]
      have happ : digitsVal ((pyNatStr (n / 10)).data ++ [digitChar (n % 10)])
          = 10 * digitsVal (pyNatStr (n / 10)).data
            + ((digitChar (n % 10)).toNat - 48) := by
        simp [digitsVal, List.foldl_append]
      rw [happ, ih (n / 10) (Nat.div_lt_self (by omega) (by omega)),
        digitChar_toNat (n % 10) (by omega)]
      omega

/-- Decimal representations are injective. -/
theorem pyNatStr_inj {m n : Nat} (h : pyNatStr m = pyNatStr n) : m = n := by
  have h2 := congrArg (fun s => digitsVal s.data) h
  simpa only [digitsVal_pyNatStr] using h2

/-- `pyJoin` with a one-character separator, at the character level. -/
theorem pyJoin_one_char_data (c : Char) (l : List String) :
    (pyJoin (⟨[c]⟩ : String) l).data = joinChars c (l.map String.data) := by
  induction l with
  | nil => rfl
  | cons x xs ih =>
    cases xs with
    | nil => rfl
    | cons y ys =>
      simp only [pyJoin, joinChars, List.map, String.data_append] at ih ⊢
      rw [ih]
      simp

/-- Splitting at the first separator occurrence is unambiguous when the
prefixes are separator-free. -/
theorem sep_split_inj (sep : Char) :
    ∀ (a b r1 r2 : List Char), sep ∉ a → sep ∉ b →
      a ++ sep :: r1 = b ++ sep :: r2 → a = b ∧ r1 = r2 := by
  intro a
  induction a with
  | nil =>
    intro b r1 r2 _ hb h
    cases b with
    | nil => simpa using h
    | cons d bs =>
      simp only [List.nil_append, List.cons_append, List.cons.injEq] at h
      exact absurd (h.1 ▸ List.mem_cons_self d bs) (by
        intro hm
        exact hb (h.1 ▸ List.mem_cons_self d bs))
  | cons c as ih =>
    intro b r1 r2 ha hb h
    cases b with
    | nil =>
      simp only [List.cons_append, List.nil_append, List.cons.injEq] at h
      exact absurd (List.mem_cons_self c as) (by
        intro _
        exact ha (h.1 ▸ List.mem_cons_self c as))
    | cons d bs =>
      simp only [List.cons_append, List.cons.injEq] at h
      obtain ⟨rfl, h2⟩ := h
      have hres := ih bs r1 r2 (fun hm => ha (List.mem_cons_of_mem _ hm))
        (fun hm => hb (List.mem_cons_of_mem _ hm)) h2
      exact ⟨by rw [hres.1], hres.2⟩

/-- Joining nonempty separator-free chunks with a separator is
injective. -/
theorem joinChars_inj (sep : Char) :
    ∀ (l1 l2 : List (List Char)),
      (∀ s ∈ l1, s ≠ [] ∧ sep ∉ s) → (∀ s ∈ l2, s ≠ [] ∧ sep ∉ s) →
      joinChars sep l1 = joinChars sep l2 → l1 = l2 := by
  intro l1
  induction l1 with
  | nil =>
    intro l2 _ h2 h
    cases l2 with
    | nil => rfl
    | cons x xs =>
      cases xs with
      | nil => exact absurd h.symm (h2 x (List.mem_cons_self x []) ).1
      | cons y ys =>
        simp only [joinChars] at h
        cases x with
        | nil => exact absurd rfl (h2 [] (List.mem_cons_self _ _)).1
        | cons c cs => simp at h
  | cons x xs ih =>
    intro l2 h1 h2 h
    cases l2 with
    | nil =>
      cases xs with
      | nil => exact absurd h (h1 x (List.mem_cons_self x []) ).1
      | cons x2 xs2 =>
        simp only [joinChars] at h
        cases x with
        | nil => exact absurd rfl (h1 [] (List.mem_cons_self _ _)).1
        | cons c cs => simp at h
    | cons y ys =>
      cases xs with
      | nil =>
        cases ys with
        | nil =>
          simp only [joinChars] at h
          rw [h]
        | cons z zs =>
          simp only [joinChars] at h
          have hsep : sep ∈ x := by
            rw [h]
            exact List.mem_append_right y (List.mem_cons_self sep _)
          exact absurd hsep (h1 x (List.mem_cons_self x _)).2
      | cons x2 xs2 =>
        cases ys with
        | nil =>
          simp only [joinChars] at h
          have hsep : sep ∈ y := by
            rw [← h]
            exact List.mem_append_right x (List.mem_cons_self sep _)
          exact absurd hsep (h2 y (List.mem_cons_self y _)).2
        | cons y2 ys2 =>
          simp only [joinChars] at h
          have hsplit := sep_split_inj sep x y (joinChars sep (x2 :: xs2))
            (joinChars sep (y2 :: ys2)) (h1 x (List.mem_cons_self x _)).2
            (h2 y (List.mem_cons_self y _)).2 h
          have htail := ih (y2 :: ys2)
            (fun s hs => h1 s (List.mem_cons_of_mem x hs))
            (fun s hs => h2 s (List.mem_cons_of_mem y hs)) hsplit.2
          rw [hsplit.1, htail]

/-- The dash-joined sorted port listing determines the sorted port
list. -/
theorem portJoin_inj {l1 l2 : List Nat}
    (h : pyJoin "-" ((sortNat l1).map pyNatStr)
      = pyJoin "-" ((sortNat l2).map pyNatStr)) :
    sortNat l1 = sortNat l2 := by
  have hd := congrArg String.data h
  rw [show ("-" : String) = (⟨['-']⟩ : String) from rfl,
    pyJoin_one_char_data, pyJoin_one_char_data] at hd
  have hcond : ∀ (l : List Nat) (s : List Char),
      s ∈ ((sortNat l).map pyNatStr).map String.data →
      s ≠ [] ∧ '-' ∉ s := by
    intro l s hs
    simp only [List.map_map, List.mem_map, Function.comp] at hs
    obtain ⟨n, _, rfl⟩ := hs
    exact ⟨pyNatStr_ne_nil n, pyNatStr_no_dash n⟩
  have hj := joinChars_inj '-' _ _ (hcond l1) (hcond l2) hd
  have hmm : (sortNat l1).map (fun n => (pyNatStr n).data)
      = (sortNat l2).map (fun n => (pyNatStr n).data) := by
    simpa [List.map_map, Function.comp] using hj
  have hinj : Function.Injective (fun n => (pyNatStr n).data) := by
    intro m n hmn
    exact pyNatStr_inj (String.ext hmn)
  exact List.map_injective_iff.mpr hinj hmm

/-- A list differing from another in exactly one port is not a
permutation of it. -/
theorem oneDiff_not_perm {l1 l2 : List Nat} (h : oneDiff l1 l2) :
    ¬ l1.Perm l2 := by
  obtain ⟨p, q, x, y, hxy, rfl, rfl⟩ := h
  intro hp
  have hc := hp.count_eq x
  simp only [List.count_append, List.count_cons] at hc
  have hxy2 : (y == x) = false := by
    simp only [beq_eq_false_iff_ne]
    exact Ne.symm hxy
  rw [hxy2] at hc
  simp at hc

/-- One-port differences survive sorting: the sorted lists differ. -/
theorem oneDiff_sortNat_ne {l1 l2 : List Nat} (h : oneDiff l1 l2) :
    sortNat l1 ≠ sortNat l2 := by
  intro he
  apply oneDiff_not_perm h
  have p1 : List.Perm (sortNat l1) l1 := List.perm_insertionSort _ _
  have p2 : List.Perm (sortNat l2) l2 := List.perm_insertionSort _ _
  exact p1.symm.trans (he ▸ p2)

/-- Lists differing in one port have equal length. -/
theorem oneDiff_length {l1 l2 : List Nat} (h : oneDiff l1 l2) :
    l1.length = l2.length := by
  obtain ⟨p, q, x, y, _, rfl, rfl⟩ := h
  simp

/-- Lists differing in one port are nonempty. -/
theorem oneDiff_ne_nil {l1 l2 : List Nat} (h : oneDiff l1 l2) :
    l1 ≠ [] ∧ l2 ≠ [] := by
  obtain ⟨p, q, x, y, _, rfl, rfl⟩ := h
  simp

/-- At the literal naming tier, the port segment determines the sorted
port list. -/
theorem port_seg_small_inj (tag : String) {l1 l2 : List Nat}
    (hne1 : l1 ≠ []) (hne2 : l2 ≠ []) (hlen1 : l1.length ≤ 20)
    (hlen2 : l2.length ≤ 20)
    (h : port_seg tag (Option.some l1) = port_seg tag (Option.some l2)) :
    sortNat l1 = sortNat l2 := by
  have e1 : l1.isEmpty = false := by
    cases l1 with
    | nil => exact absurd rfl hne1
    | cons a t => rfl
  have e2 : l2.isEmpty = false := by
    cases l2 with
    | nil => exact absurd rfl hne2
    | cons a t => rfl
  have hc1 : ¬ (20 < l1.length) := by omega
  have hc2 : ¬ (20 < l2.length) := by omega
  simp only [port_seg, e1, e2, Bool.false_eq_true, if_false] at h
  rw [if_neg hc1, if_neg hc2] at h
  exact portJoin_inj (strApp_left_cancel h)

/-- At the hashed naming tier (over 20 ports, equal counts), the port
segments agree exactly when the 8-character digests agree. -/
theorem port_seg_range_iff (tag : String) {l1 l2 : List Nat}
    (hlen : l1.length = l2.length) (hgt : 20 < l1.length) :
    port_seg tag (Option.some l1) = port_seg tag (Option.some l2)
      ↔ ports_hash8 l1 = ports_hash8 l2 := by
  have e1 : l1.isEmpty = false := by
    cases l1 with
    | nil => simp at hgt
    | cons a t => rfl
  have e2 : l2.isEmpty = false := by
    cases l2 with
    | nil => simp only [List.length_nil] at hlen; omega
    | cons a t => rfl
  simp only [port_seg, e1, e2, Bool.false_eq_true, if_false]
  rw [if_pos hgt, if_pos (by omega : 20 < l2.length), hlen]
  constructor
  · intro h
    exact strApp_left_cancel h
  · intro h
    rw [h]

/-- Below the 200-character bound the filename is the base name plus the
extension. -/
theorem outage_filename_short (d : Option (List String))
    (ip ep : Option (List Nat)) (ic wd td : Int)
    (h : (outage_base d ip ep).length ≤ 200) :
    outage_filename d ip ep ic wd td = outage_base d ip ep ++ ".yaml" := by
  simp only [outage_filename]
  rw [if_neg (by omega)]

/-- Changing one ingress port (at most 20 ports, short base names) changes
the filename. -/
theorem outage_ingress_small_distinct (d : Option (List String))
    (ep : Option (List Nat)) (ic wd td : Int) {ip1 ip2 : List Nat}
    (hd : oneDiff ip1 ip2) (hlen : ip1.length ≤ 20)
    (hb1 : (outage_base d (Option.some ip1) ep).length ≤ 200)
    (hb2 : (outage_base d (Option.some ip2) ep).length ≤ 200) :
    outage_filename d (Option.some ip1) ep ic wd td
      ≠ outage_filename d (Option.some ip2) ep ic wd td := by
  intro h
  rw [outage_filename_short d _ ep ic wd td hb1,
    outage_filename_short d _ ep ic wd td hb2] at h
  have hbase := strApp_right_cancel h
  simp only [outage_base] at hbase
  have h2 := strApp_right_cancel hbase
  have h3 := strApp_left_cancel h2
  have hne := oneDiff_ne_nil hd
  exact oneDiff_sortNat_ne hd (port_seg_small_inj "ingress" hne.1 hne.2
    hlen (oneDiff_length hd ▸ hlen) h3)

/-- Changing one egress port (at most 20 ports, short base names) changes
the filename. -/
theorem outage_egress_small_distinct (d : Option (List String))
    (ip : Option (List Nat)) (ic wd td : Int) {ep1 ep2 : List Nat}
    (hd : oneDiff ep1 ep2) (hlen : ep1.length ≤ 20)
    (hb1 : (outage_base d ip (Option.some ep1)).length ≤ 200)
    (hb2 : (outage_base d ip (Option.some ep2)).length ≤ 200) :
    outage_filename d ip (Option.some ep1) ic wd td
      ≠ outage_filename d ip (Option.some ep2) ic wd td := by
  intro h
  rw [outage_filename_short d ip _ ic wd td hb1,
    outage_filename_short d ip _ ic wd td hb2] at h
  have hbase := strApp_right_cancel h
  simp only [outage_base] at hbase
  have h3 := strApp_left_cancel hbase
  have hne := oneDiff_ne_nil hd
  exact oneDiff_sortNat_ne hd (port_seg_small_inj "egress" hne.1 hne.2
    hlen (oneDiff_length hd ▸ hlen) h3)

/-- Over 20 ingress ports (equal counts, short base names), the filenames
agree exactly when the embedded digests agree. -/
theorem outage_ingress_range_iff (d : Option (List String))
    (ep : Option (List Nat)) (ic wd td : Int) {ip1 ip2 : List Nat}
    (hlen : ip1.length = ip2.length) (hgt : 20 < ip1.length)
    (hb1 : (outage_base d (Option.some ip1) ep).length ≤ 200)
    (hb2 : (outage_base d (Option.some ip2) ep).length ≤ 200) :
    outage_filename d (Option.some ip1) ep ic wd td
        = outage_filename d (Option.some ip2) ep ic wd td
      ↔ ports_hash8 ip1 = ports_hash8 ip2 := by
  rw [outage_filename_short d _ ep ic wd td hb1,
    outage_filename_short d _ ep ic wd td hb2]
  constructor
  · intro h
    have hbase := strApp_right_cancel h
    simp only [outage_base] at hbase
    have h2 := strApp_right_cancel hbase
    have h3 := strApp_left_cancel h2
    exact (port_seg_range_iff "ingress" hlen hgt).mp h3
  · intro h
    have hseg : port_seg "ingress" (Option.some ip1)
        = port_seg "ingress" (Option.some ip2) :=
      (port_seg_range_iff "ingress" hlen hgt).mpr h
    simp only [outage_base, hseg]

/-- Over 20 egress ports (equal counts, short base names), the filenames
agree exactly when the embedded digests agree. -/
theorem outage_egress_range_iff (d : Option (List String))
    (ip : Option (List Nat)) (ic wd td : Int) {ep1 ep2 : List Nat}
    (hlen : ep1.length = ep2.length) (hgt : 20 < ep1.length)
    (hb1 : (outage_base d ip (Option.some ep1)).length ≤ 200)
    (hb2 : (outage_base d ip (Option.some ep2)).length ≤ 200) :
    outage_filename d ip (Option.some ep1) ic wd td
        = outage_filename d ip (Option.some ep2) ic wd td
      ↔ ports_hash8 ep1 = ports_hash8 ep2 := by
  rw [outage_filename_short d ip _ ic wd td hb1,
    outage_filename_short d ip _ ic wd td hb2]
  constructor
  · intro h
    have hbase := strApp_right_cancel h
    simp only [outage_base] at hbase
    have h3 := strApp_left_cancel hbase
    exact (port_seg_range_iff "egress" hlen hgt).mp h3
  · intro h
    have hseg : port_seg "egress" (Option.some ep1)
        = port_seg "egress" (Option.some ep2) :=
      (port_seg_range_iff "egress" hlen hgt).mpr h
    simp only [outage_base, hseg]

/-- The output filename of `pod_network_outage` does not depend on
namespace or pod selector. -/
theorem outage_filename_independent {ns1 ns2 : String}
    {d : Option (List String)} {ip ep : Option (List Nat)}
    {pn1 ls1 pn2 ls2 : Val} {ic wd td : Int} {o1 o2 : String × Config}
    (h1 : pod_network_outage ns1 d ip ep pn1 ls1 ic wd td = Except.ok o1)
    (h2 : pod_network_outage ns2 d ip ep pn2 ls2 ic wd td = Except.ok o2) :
    o1.1 = o2.1 := by
  simp only [pod_network_outage] at h1 h2
  cases hg1 : get_pod_selector_config pn1 ls1 with
  | error e => rw [hg1] at h1; exact absurd h1 (by simp)
  | ok frag =>
    rw [hg1] at h1
    cases hg2 : get_pod_selector_config pn2 ls2 with
    | error e => rw [hg2] at h2; exact absurd h2 (by simp)
    | ok frag2 =>
      rw [hg2] at h2
      injection h1 with h1'
      injection h2 with h2'
      rw [← h1', ← h2']

/-! ## MD5 digest structure lemmas -/

/-- MD5 output decomposes into the little-endian bytes of its four state
words. -/
theorem md5Bytes_shape (msg : List Nat) :
    ∃ a b c d : Nat,
      md5Bytes msg = toLE4 a ++ toLE4 b ++ toLE4 c ++ toLE4 d :=
  ⟨_, _, _, _, rfl⟩

/-- The value of the first four MD5 output bytes. -/
theorem first4val_le4 (a b c d : Nat) :
    first4val (toLE4 a ++ toLE4 b ++ toLE4 c ++ toLE4 d)
      = a % 256 + 256 * (a / 256 % 256) + 65536 * (a / 65536 % 256)
        + 16777216 * (a / 16777216 % 256) := rfl

/-- The first four MD5 output bytes encode a value below 2^32. -/
theorem first4val_md5_lt (m : List Nat) :
    first4val (md5Bytes m) < 4294967296 := by
  obtain ⟨a, b, c, d, he⟩ := md5Bytes_shape m
  rw [he, first4val_le4]
  have h1 : a % 256 < 256 := Nat.mod_lt _ (by omega)
  have h2 : a / 256 % 256 < 256 := Nat.mod_lt _ (by omega)
  have h3 : a / 65536 % 256 < 256 := Nat.mod_lt _ (by omega)
  have h4 : a / 16777216 % 256 < 256 := Nat.mod_lt _ (by omega)
  omega

/-- The 8-character digest prefix is a function of the value of the first
four MD5 output bytes. -/
theorem hash8_of_first4val_eq {s1 s2 : String}
    (h : first4val (md5Bytes (strBytes s1))
      = first4val (md5Bytes (strBytes s2))) :
    strTake (md5hex s1) 8 = strTake (md5hex s2) 8 := by
  obtain ⟨a1, b1, c1, d1, e1⟩ := md5Bytes_shape (strBytes s1)
  obtain ⟨a2, b2, c2, d2, e2⟩ := md5Bytes_shape (strBytes s2)
  rw [e1, first4val_le4] at h
  rw [e2, first4val_le4] at h
  have h1 : a1 % 256 < 256 := Nat.mod_lt _ (by omega)
  have h2 : a2 % 256 < 256 := Nat.mod_lt _ (by omega)
  have ha : a1 % 256 = a2 % 256 := by omega
  have hb : a1 / 256 % 256 = a2 / 256 % 256 := by omega
  have hc : a1 / 65536 % 256 = a2 / 65536 % 256 := by omega
  have hd : a1 / 16777216 % 256 = a2 / 16777216 % 256 := by omega
  have hle : toLE4 a1 = toLE4 a2 := by
    simp only [toLE4]
    rw [ha, hb, hc, hd]
  have hlen1 : ((toLE4 a1).flatMap byteHex).length = 8 := by
    simp [toLE4, byteHex]
  have hlen2 : ((toLE4 a2).flatMap byteHex).length = 8 := by
    simp [toLE4, byteHex]
  apply String.ext
  show ((md5Bytes (strBytes s1)).flatMap byteHex).take 8
    = ((md5Bytes (strBytes s2)).flatMap byteHex).take 8
  rw [e1, e2]
  simp only [List.append_assoc, List.flatMap_append]
  rw [List.take_left' hlen1, List.take_left' hlen2, hle]

/-! ## The 22-port family -/

/-- The port family is already sorted. -/
theorem sortNat_portFamily (k : Nat) : sortNat (portFamily k) = portFamily k := by
  apply List.Sorted.insertionSort_eq
  simp only [portFamily]
  apply List.pairwise_append.mpr
  refine ⟨List.pairwise_le_range 21, by simp, ?_⟩
  intro a ha b hb
  simp only [List.mem_range] at ha
  simp only [List.mem_singleton] at hb
  omega

/-- The port family has 22 entries. -/
theorem portFamily_length (k : Nat) : (portFamily k).length = 22 := by
  simp [portFamily]

/-- The ingress segment of a port-family invocation: count plus
8-character digest. -/
theorem family_seg (k : Nat) :
    port_seg "ingress" (Option.some (portFamily k))
      = "_" ++ "ingress" ++ "_range_" ++ pyNatStr 22 ++ "ports_"
        ++ strTake (md5hex (pyReprNatList (portFamily k))) 8 := by
  have e : (portFamily k).isEmpty = false := by
    simp [portFamily, List.isEmpty_iff]
  simp only [port_seg, e, Bool.false_eq_true, if_false, portFamily_length]
  rw [if_pos (by omega : (20 : Nat) < 22)]
  rw [ports_hash8, sortNat_portFamily]

/-- An MD5 hex digest has 32 characters. -/
theorem md5hex_data_length (s : String) : (md5hex s).data.length = 32 := by
  obtain ⟨a, b, c, d, he⟩ := md5Bytes_shape (strBytes s)
  show ((md5Bytes (strBytes s)).flatMap byteHex).length = 32
  rw [he]
  simp [toLE4, byteHex]

/-- The truncated 8-character digest has 8 characters. -/
theorem hash8_length (s : String) : (strTake (md5hex s) 8).length = 8 := by
  show ((md5hex s).data.take 8).length = 8
  rw [List.length_take, md5hex_data_length]
  decide

/-- The base name of a port-family invocation has 64 characters. -/
theorem family_base_length (k : Nat) :
    (outage_base Option.none (Option.some (portFamily k))
      Option.none).length = 64 := by
  simp only [outage_base, family_seg]
  have h1 : (strTake (md5hex (pyReprNatList (portFamily k))) 8).length = 8 :=
    hash8_length _
  have h2 : (outage_dir_str Option.none).length = 14 := rfl
  have h3 : port_seg "egress" Option.none = "" := rfl
  have h4 : ("pod_network_outage_" : String).length = 19 := rfl
  have h5 : ("_" : String).length = 1 := rfl
  have h6 : ("ingress" : String).length = 7 := rfl
  have h7 : ("_range_" : String).length = 7 := rfl
  have h8 : (pyNatStr 22).length = 2 := rfl
  have h9 : ("ports_" : String).length = 6 := rfl
  have h10 : ("" : String).length = 0 := rfl
  rw [h3]
  simp only [String.length_append, h1, h2, h4, h5, h6, h7, h8, h9, h10]

/-- Colliding truncated digests collide the whole filename across the
port family. -/
theorem family_filename_eq (k k' : Nat)
    (hh : strTake (md5hex (pyReprNatList (portFamily k))) 8
        = strTake (md5hex (pyReprNatList (portFamily k'))) 8) :
    outage_filename Option.none (Option.some (portFamily k)) Option.none
        1 300 120
      = outage_filename Option.none (Option.some (portFamily k')) Option.none
        1 300 120 := by
  rw [outage_filename_short _ _ _ _ _ _ (by rw [family_base_length]; omega),
    outage_filename_short _ _ _ _ _ _ (by rw [family_base_length]; omega)]
  simp only [outage_base, family_seg, hh]

/-! ## C4 -/

/-- C4 counterexample: with more than 20 ports, one-port differences do
not always change the filename — the 8-character digest takes only 2^32
values, so among the 2^32 + 1 members of the 22-port family two distinct
ones (differing in exactly one port) share a filename. -/
theorem outage_one_port_distinctness_counterexample :
    ¬ (∀ ip1 ip2 : List Nat, oneDiff ip1 ip2 → 20 < ip1.length →
        outage_filename Option.none (Option.some ip1) Option.none 1 300 120
          ≠ outage_filename Option.none (Option.some ip2) Option.none
              1 300 120) := by
  intro hclaim
  obtain ⟨k, k', hkk, hfeq⟩ := Fintype.exists_ne_map_eq_of_card_lt
    (fun k : Fin 4294967297 =>
      (⟨first4val (md5Bytes (strBytes (pyReprNatList (portFamily k.val)))),
        first4val_md5_lt _⟩ : Fin 4294967296))
    (by simp only [Fintype.card_fin]; omega)
  have hv : first4val (md5Bytes (strBytes (pyReprNatList (portFamily k.val))))
      = first4val (md5Bytes (strBytes (pyReprNatList (portFamily k'.val)))) :=
    congrArg Fin.val hfeq
  have hfn := family_filename_eq k.val k'.val (hash8_of_first4val_eq hv)
  have hxy : 21 + k.val ≠ 21 + k'.val := by
    intro hx
    exact hkk (Fin.ext (by omega))
  exact hclaim (portFamily k.val) (portFamily k'.val)
    ⟨List.range 21, [], 21 + k.val, 21 + k'.val, hxy, rfl, rfl⟩
    (by rw [portFamily_length]; omega) hfn

/-- C4 (amended): the filename of `pod_network_outage` is a function of
direction, port lists, instance count and wait/test durations alone (two
successful calls agreeing on those agree byte-for-byte on the filename);
changing one port of a list of at most 20 ports changes the filename while
the base name stays within 200 characters; for port lists of more than 20
entries (equal counts, short base names) the filenames embed an
8-character digest over the sorted port list and agree exactly when those
digests agree — which pigeonholing shows is not injective. -/
theorem outage_filename_props :
    (∀ (ns1 ns2 : String) (d : Option (List String))
        (ip ep : Option (List Nat)) (pn1 ls1 pn2 ls2 : Val) (ic wd td : Int)
        (o1 o2 : String × Config),
        pod_network_outage ns1 d ip ep pn1 ls1 ic wd td = Except.ok o1 →
        pod_network_outage ns2 d ip ep pn2 ls2 ic wd td = Except.ok o2 →
        o1.1 = o2.1)
    ∧ (∀ (d : Option (List String)) (ep : Option (List Nat)) (ic wd td : Int)
        (ip1 ip2 : List Nat), oneDiff ip1 ip2 → ip1.length ≤ 20 →
        (outage_base d (Option.some ip1) ep).length ≤ 200 →
        (outage_base d (Option.some ip2) ep).length ≤ 200 →
        outage_filename d (Option.some ip1) ep ic wd td
          ≠ outage_filename d (Option.some ip2) ep ic wd td)
    ∧ (∀ (d : Option (List String)) (ip : Option (List Nat)) (ic wd td : Int)
        (ep1 ep2 : List Nat), oneDiff ep1 ep2 → ep1.length ≤ 20 →
        (outage_base d ip (Option.some ep1)).length ≤ 200 →
        (outage_base d ip (Option.some ep2)).length ≤ 200 →
        outage_filename d ip (Option.some ep1) ic wd td
          ≠ outage_filename d ip (Option.some ep2) ic wd td)
    ∧ (∀ (d : Option (List String)) (ep : Option (List Nat)) (ic wd td : Int)
        (ip1 ip2 : List Nat), ip1.length = ip2.length → 20 < ip1.length →
        (outage_base d (Option.some ip1) ep).length ≤ 200 →
        (outage_base d (Option.some ip2) ep).length ≤ 200 →
        (outage_filename d (Option.some ip1) ep ic wd td
            = outage_filename d (Option.some ip2) ep ic wd td
          ↔ ports_hash8 ip1 = ports_hash8 ip2))
    ∧ (∀ (d : Option (List String)) (ip : Option (List Nat)) (ic wd td : Int)
        (ep1 ep2 : List Nat), ep1.length = ep2.length → 20 < ep1.length →
        (outage_base d ip (Option.some ep1)).length ≤ 200 →
        (outage_base d ip (Option.some ep2)).length ≤ 200 →
        (outage_filename d ip (Option.some ep1) ic wd td
            = outage_filename d ip (Option.some ep2) ic wd td
          ↔ ports_hash8 ep1 = ports_hash8 ep2)) :=
  ⟨fun _ _ _ _ _ _ _ _ _ _ _ _ _ _ h1 h2 =>
      outage_filename_independent h1 h2,
   fun d ep ic wd td _ _ hd hl hb1 hb2 =>
      outage_ingress_small_distinct d ep ic wd td hd hl hb1 hb2,
   fun d ip ic wd td _ _ hd hl hb1 hb2 =>
      outage_egress_small_distinct d ip ic wd td hd hl hb1 hb2,
   fun d ep ic wd td _ _ hl hg hb1 hb2 =>
      outage_ingress_range_iff d ep ic wd td hl hg hb1 hb2,
   fun d ip ic wd td _ _ hl hg hb1 hb2 =>
      outage_egress_range_iff d ip ic wd td hl hg hb1 hb2⟩

/-- C4 witness: changing one port of a two-port ingress list changes the
filename. -/
theorem outage_filename_props_witness :
    outage_filename Option.none (Option.some [80, 8080]) Option.none 1 300 120
      ≠ outage_filename Option.none (Option.some [80, 9090]) Option.none
          1 300 120 :=
  outage_filename_props.2.1 Option.none Option.none 1 300 120 [80, 8080]
    [80, 9090] ⟨[80], [], 8080, 9090, by omega, rfl, rfl⟩ (by decide)
    (by decide) (by decide)
